import Mathlib

/-!
Shallow embedding of the SpamWatchAPI persistence layer
(`src/database.rs`), a data-access component over PostgreSQL holding two
tables, `tokens` and `banlist`, plus the `permission` enum type.

The database is modelled as an explicit state: the two tables as lists of
rows in physical (insertion) order, the serial sequence backing
`tokens.id` as a counter, and existence of the three schema objects as
booleans.  Each store operation of `database.rs` becomes a function
`DbState → Except DbError α × DbState`: the second component is the
database state after the call (PostgreSQL statements are atomic, so a
failed statement leaves the tables unchanged), the first the value or
error the Rust method returns via `Result`.
-/

/-- Permission levels, as declared by the SQL
`CREATE TYPE permission AS ENUM ... ;` in `setup_tables` (the Rust enum
itself lives in `guards.rs`, outside the provided sources, but its three
values `User`, `Admin`, `Root` are fixed by the DDL). -/
inductive Permission where
  | User
  | Admin
  | Root
deriving DecidableEq, Repr

/-- A row of the `tokens` table; also the Rust `Token` record produced by
`row.get(0) .. row.get(3)` in column order `(id, token, permissions,
userid)`. -/
structure Token where
  id : Int
  token : String
  permissions : Permission
  userid : Int
deriving DecidableEq, Repr

/-- A row of the `banlist` table; also the Rust `Ban` record, columns
`(id, reason, date)`.  The SQL `timestamp` is modelled as an integer. -/
structure Ban where
  id : Int
  reason : String
  date : Int
deriving DecidableEq, Repr

/-- Errors surfaced by statement execution that the model distinguishes:
running a statement against a missing table, violating the `tokens`
primary key on `token`, and creating an already-existing type. -/
inductive DbError where
  | undefinedTable
  | uniqueViolation
  | duplicateType
deriving DecidableEq, Repr

/-- Database state: schema-object existence flags, the `tokens` table and
its serial sequence (`nextId` is the value `nextval` would hand out
next), and the `banlist` table. -/
structure DbState where
  banlistTable : Bool
  permType : Bool
  tokensTable : Bool
  tokens : List Token
  nextId : Int
  banlist : List Ban
deriving DecidableEq, Repr

/-- Configuration consumed from `settings::ENV`: `token_size` and
`masterid`. -/
structure Config where
  token_size : Nat
  masterid : Int
deriving DecidableEq, Repr

/-- Model of `nanoid::generate(size)`: a string of exactly `size`
characters drawn from an entropy source. -/
def nanoid_generate (size : Nat) (entropy : Nat → Char) : String :=
  String.mk ((List.range size).map entropy)

/-- The statement `CREATE TABLE IF NOT EXISTS banlist ...;`. -/
def createBanlistTable (s : DbState) : DbState :=
  if s.banlistTable then s else { s with banlistTable := true }

/-- An unguarded `CREATE TYPE permission AS ENUM ...;`: errors with a
duplicate-type violation when the type already exists. -/
def createPermissionType (s : DbState) : Except DbError Unit × DbState :=
  if s.permType then (.error .duplicateType, s)
  else (.ok (), { s with permType := true })

/-- The `DO $$ ... IF NOT EXISTS (SELECT 1 FROM pg_type ...) THEN CREATE
TYPE permission ... END$$;` block of `setup_tables`: the existence check
guards the `CREATE TYPE`. -/
def createPermissionTypeGuarded (s : DbState) : Except DbError Unit × DbState :=
  if s.permType then (.ok (), s) else createPermissionType s

/-- The statement `CREATE TABLE IF NOT EXISTS tokens ...;`. -/
def createTokensTable (s : DbState) : DbState :=
  if s.tokensTable then s else { s with tokensTable := true }

/-- Model of `Database::setup_tables`: creates the `banlist` table, the guarded
`permission` type, and the `tokens` table, in that order. -/
def setup_tables (s : DbState) : Except DbError Unit × DbState :=
  let s1 := createBanlistTable s
  match createPermissionTypeGuarded s1 with
  | (.error e, s2) => (.error e, s2)
  | (.ok _, s2) => (.ok (), createTokensTable s2)

/-- Model of `Database::get_tokens`: `SELECT * FROM tokens;`, every row mapped to
a `Token` record. -/
def get_tokens (s : DbState) : Except DbError (List Token) × DbState :=
  if s.tokensTable then (.ok s.tokens, s) else (.error .undefinedTable, s)

/-- Model of `Database::get_token_by_id`: `SELECT * FROM tokens WHERE id = $1;`
followed by `Vec::pop`, which takes the LAST row of the result set (the
result set is in table order). -/
def get_token_by_id (token_id : Int) (s : DbState) :
    Except DbError (Option Token) × DbState :=
  if s.tokensTable then
    (.ok ((s.tokens.filter (fun r => r.id == token_id)).getLast?), s)
  else (.error .undefinedTable, s)

/-- Model of `Database::get_token`: `SELECT * FROM tokens WHERE token = $1;`
followed by `Vec::pop`. -/
def get_token (token : String) (s : DbState) :
    Except DbError (Option Token) × DbState :=
  if s.tokensTable then
    (.ok ((s.tokens.filter (fun r => r.token == token)).getLast?), s)
  else (.error .undefinedTable, s)

/-- Model of `Database::create_token`: generates a secret of
`settings::ENV.token_size` characters with `nanoid`, then runs the single
statement `INSERT INTO tokens (token, permissions, userid) VALUES ($1,
$2, $3);`.  The `id` column takes its serial default, so `nextval` is
consumed even when the primary-key constraint on `token` then rejects the
row; a rejected statement persists nothing. -/
def create_token (cfg : Config) (entropy : Nat → Char) (permission : Permission)
    (userid : Int) (s : DbState) : Except DbError String × DbState :=
  let token := nanoid_generate cfg.token_size entropy
  if s.tokensTable then
    if s.tokens.any (fun r => r.token == token) then
      (.error .uniqueViolation, { s with nextId := s.nextId + 1 })
    else
      (.ok token,
       { s with
         tokens := s.tokens ++ [{ id := s.nextId, token := token,
                                  permissions := permission, userid := userid }],
         nextId := s.nextId + 1 })
  else (.error .undefinedTable, s)

/-- Model of `Database::create_genesis_token`: runs `SELECT * FROM tokens WHERE
id = 1;`; when the result is empty it calls
`create_token(Root, masterid)` and logs the returned plaintext secret
(the `info!` line), otherwise it skips creation.  The logged secret is
the `Option String` in the result: `some` exactly when a secret was
surfaced. -/
def create_genesis_token (cfg : Config) (entropy : Nat → Char) (s : DbState) :
    Except DbError (Option String) × DbState :=
  if s.tokensTable then
    if (s.tokens.filter (fun r => r.id == 1)).isEmpty then
      match create_token cfg entropy .Root cfg.masterid s with
      | (.ok token, s1) => (.ok (some token), s1)
      | (.error e, s1) => (.error e, s1)
    else (.ok none, s)
  else (.error .undefinedTable, s)

/-- Model of `Database::delete_token_by_id`: `DELETE FROM tokens WHERE id = $1;`.
Deleting zero rows is a success. -/
def delete_token_by_id (token_id : Int) (s : DbState) :
    Except DbError Unit × DbState :=
  if s.tokensTable then
    (.ok (), { s with tokens := s.tokens.filter (fun r => !(r.id == token_id)) })
  else (.error .undefinedTable, s)

/-- Model of `Database::get_bans`: `SELECT * FROM banlist;`. -/
def get_bans (s : DbState) : Except DbError (List Ban) × DbState :=
  if s.banlistTable then (.ok s.banlist, s) else (.error .undefinedTable, s)

/-- The row transformation of the single statement `INSERT INTO banlist
VALUES ($1, $2, now()) ON CONFLICT (id) DO UPDATE SET
reason=EXCLUDED.reason, date=excluded.date;`: rows whose `id` conflicts
take the excluded row's `reason` and `date`; when none conflicts the new
row is appended. -/
def upsert_banlist (user_id : Int) (reason : String) (now : Int)
    (l : List Ban) : List Ban :=
  if l.any (fun r => r.id == user_id) then
    l.map (fun r => if r.id == user_id then { r with reason := reason, date := now } else r)
  else l ++ [{ id := user_id, reason := reason, date := now }]

/-- Model of `Database::add_ban`: the upsert statement above, with `now()` the
server clock at execution time. -/
def add_ban (user_id : Int) (reason : String) (now : Int) (s : DbState) :
    Except DbError Unit × DbState :=
  if s.banlistTable then
    (.ok (), { s with banlist := upsert_banlist user_id reason now s.banlist })
  else (.error .undefinedTable, s)

/-- Model of `Database::get_ban`: `SELECT * FROM banlist WHERE id = $1;` followed
by `Vec::pop`. -/
def get_ban (user_id : Int) (s : DbState) :
    Except DbError (Option Ban) × DbState :=
  if s.banlistTable then
    (.ok ((s.banlist.filter (fun r => r.id == user_id)).getLast?), s)
  else (.error .undefinedTable, s)

/-- Model of `Database::delete_ban`: `DELETE FROM banlist WHERE id = $1;`. -/
def delete_ban (user_id : Int) (s : DbState) :
    Except DbError Unit × DbState :=
  if s.banlistTable then
    (.ok (), { s with banlist := s.banlist.filter (fun r => !(r.id == user_id)) })
  else (.error .undefinedTable, s)

/-- The constraints the `CREATE TABLE tokens` DDL places on a table
state: `token Text NOT NULL PRIMARY KEY` makes the secret unique across
rows; `id` is merely `SERIAL` (a default, not a key), and the remaining
columns are `NOT NULL`, which the typed rows satisfy by construction. -/
def tokensSchemaAdmits (rows : List Token) : Prop :=
  rows.Pairwise (fun a b => a.token ≠ b.token)

instance : DecidablePred tokensSchemaAdmits := fun rows =>
  inferInstanceAs (Decidable (rows.Pairwise _))

/-- The fresh database: no schema objects, empty tables, serial sequence
at 1. -/
def initState : DbState :=
  { banlistTable := false, permType := false, tokensTable := false,
    tokens := [], nextId := 1, banlist := [] }

/-- A single invocation of one of the store's operations, relating the
state before to the state after. -/
inductive Step (cfg : Config) : DbState → DbState → Prop where
  | setup (s : DbState) : Step cfg s (setup_tables s).2
  | genesis (entropy : Nat → Char) (s : DbState) :
      Step cfg s (create_genesis_token cfg entropy s).2
  | listTokens (s : DbState) : Step cfg s (get_tokens s).2
  | getById (token_id : Int) (s : DbState) : Step cfg s (get_token_by_id token_id s).2
  | getBySecret (token : String) (s : DbState) : Step cfg s (get_token token s).2
  | createTok (entropy : Nat → Char) (p : Permission) (userid : Int) (s : DbState) :
      Step cfg s (create_token cfg entropy p userid s).2
  | deleteTok (token_id : Int) (s : DbState) : Step cfg s (delete_token_by_id token_id s).2
  | listBans (s : DbState) : Step cfg s (get_bans s).2
  | addB (user_id : Int) (reason : String) (now : Int) (s : DbState) :
      Step cfg s (add_ban user_id reason now s).2
  | getB (user_id : Int) (s : DbState) : Step cfg s (get_ban user_id s).2
  | deleteB (user_id : Int) (s : DbState) : Step cfg s (delete_ban user_id s).2

/-- States reachable from the fresh database through the store's
operations. -/
def Reachable (cfg : Config) (s : DbState) : Prop :=
  Relation.ReflTransGen (Step cfg) initState s

/-! ## Basic state-preservation lemmas -/

theorem get_tokens_snd (s : DbState) : (get_tokens s).2 = s := by
  unfold get_tokens; split <;> rfl

theorem get_token_by_id_snd (i : Int) (s : DbState) : (get_token_by_id i s).2 = s := by
  unfold get_token_by_id; split <;> rfl

theorem get_token_snd (t : String) (s : DbState) : (get_token t s).2 = s := by
  unfold get_token; split <;> rfl

theorem get_bans_snd (s : DbState) : (get_bans s).2 = s := by
  unfold get_bans; split <;> rfl

theorem get_ban_snd (u : Int) (s : DbState) : (get_ban u s).2 = s := by
  unfold get_ban; split <;> rfl

theorem create_token_snd_banlist (cfg : Config) (e : Nat → Char) (p : Permission)
    (uid : Int) (s : DbState) :
    ((create_token cfg e p uid s).2).banlist = s.banlist := by
  unfold create_token
  dsimp only
  split
  · split <;> rfl
  · rfl

theorem create_token_snd_flags (cfg : Config) (e : Nat → Char) (p : Permission)
    (uid : Int) (s : DbState) :
    ((create_token cfg e p uid s).2).tokensTable = s.tokensTable ∧
    ((create_token cfg e p uid s).2).banlistTable = s.banlistTable ∧
    ((create_token cfg e p uid s).2).permType = s.permType := by
  unfold create_token
  dsimp only
  split
  · split <;> exact ⟨rfl, rfl, rfl⟩
  · exact ⟨rfl, rfl, rfl⟩

theorem create_genesis_token_snd_cases (cfg : Config) (e : Nat → Char) (s : DbState) :
    (create_genesis_token cfg e s).2 = s ∨
    (create_genesis_token cfg e s).2 = (create_token cfg e .Root cfg.masterid s).2 := by
  unfold create_genesis_token
  split
  · split
    · right
      rcases hct : create_token cfg e Permission.Root cfg.masterid s with ⟨r, s1⟩
      cases r <;> simp [hct]
    · left; rfl
  · left; rfl

theorem create_genesis_token_snd_banlist (cfg : Config) (e : Nat → Char) (s : DbState) :
    ((create_genesis_token cfg e s).2).banlist = s.banlist := by
  rcases create_genesis_token_snd_cases cfg e s with h | h
  · rw [h]
  · rw [h, create_token_snd_banlist]

theorem delete_token_by_id_snd_banlist (i : Int) (s : DbState) :
    ((delete_token_by_id i s).2).banlist = s.banlist := by
  unfold delete_token_by_id; split <;> rfl

theorem add_ban_snd_tokens (u : Int) (r : String) (n : Int) (s : DbState) :
    ((add_ban u r n s).2).tokens = s.tokens ∧
    ((add_ban u r n s).2).nextId = s.nextId := by
  unfold add_ban; split <;> exact ⟨rfl, rfl⟩

theorem delete_ban_snd_tokens (u : Int) (s : DbState) :
    ((delete_ban u s).2).tokens = s.tokens ∧
    ((delete_ban u s).2).nextId = s.nextId := by
  unfold delete_ban; split <;> exact ⟨rfl, rfl⟩

/-! ## Concrete fixtures used by witnesses and counterexamples -/

/-- A sample configuration: four-character secrets, master id 77. -/
def cfg0 : Config := { token_size := 4, masterid := 77 }

/-- An entropy source that always yields the character a. -/
def entA : Nat → Char := fun _ => 'a'

/-- An entropy source that always yields the character b. -/
def entB : Nat → Char := fun _ => 'b'

/-- A state with the full schema in place and both tables empty. -/
def sReady : DbState :=
  { banlistTable := true, permType := true, tokensTable := true,
    tokens := [], nextId := 1, banlist := [] }

/-- A state with the full schema in place, one token row and one ban
row. -/
def sOneEach : DbState :=
  { banlistTable := true, permType := true, tokensTable := true,
    tokens := [{ id := 1, token := "aaaa", permissions := .Root, userid := 77 }],
    nextId := 2,
    banlist := [{ id := 7, reason := "spam", date := 100 }] }

/-! ## C8: frame separation between token and ban operations -/

/-- C8: token operations (`create_token`, `get_token`, `get_token_by_id`,
`get_tokens`, `delete_token_by_id`, `create_genesis_token`) leave the
`banlist` table unchanged, and ban operations (`add_ban`, `get_ban`,
`get_bans`, `delete_ban`) leave the `tokens` table unchanged. -/
theorem ops_frame_separation (cfg : Config) (e : Nat → Char) (p : Permission)
    (userid token_id user_id now : Int) (secret reason : String) (s : DbState) :
    ((create_token cfg e p userid s).2).banlist = s.banlist ∧
    ((get_token secret s).2).banlist = s.banlist ∧
    ((get_token_by_id token_id s).2).banlist = s.banlist ∧
    ((get_tokens s).2).banlist = s.banlist ∧
    ((delete_token_by_id token_id s).2).banlist = s.banlist ∧
    ((create_genesis_token cfg e s).2).banlist = s.banlist ∧
    ((add_ban user_id reason now s).2).tokens = s.tokens ∧
    ((get_ban user_id s).2).tokens = s.tokens ∧
    ((get_bans s).2).tokens = s.tokens ∧
    ((delete_ban user_id s).2).tokens = s.tokens :=
  ⟨create_token_snd_banlist cfg e p userid s,
   by rw [get_token_snd], by rw [get_token_by_id_snd], by rw [get_tokens_snd],
   delete_token_by_id_snd_banlist token_id s,
   create_genesis_token_snd_banlist cfg e s,
   (add_ban_snd_tokens user_id reason now s).1,
   by rw [get_ban_snd], by rw [get_bans_snd],
   (delete_ban_snd_tokens user_id s).1⟩

/-! ## C6: lookups return none on absence, some on unique presence -/

/-- C6: `get_token_by_id`, `get_token` and `get_ban` return `Ok(None)` —
never an error — when no matching row exists, and `Ok(Some record)` for
the matching record when exactly one row matches. -/
theorem lookups_none_when_absent_some_when_unique (token_id : Int) (secret : String)
    (user_id : Int) (s : DbState)
    (htk : s.tokensTable = true) (hbl : s.banlistTable = true) :
    ((∀ r ∈ s.tokens, r.id ≠ token_id) → (get_token_by_id token_id s).1 = .ok none) ∧
    (∀ r, s.tokens.filter (fun x => x.id == token_id) = [r] →
      (get_token_by_id token_id s).1 = .ok (some r)) ∧
    ((∀ r ∈ s.tokens, r.token ≠ secret) → (get_token secret s).1 = .ok none) ∧
    (∀ r, s.tokens.filter (fun x => x.token == secret) = [r] →
      (get_token secret s).1 = .ok (some r)) ∧
    ((∀ r ∈ s.banlist, r.id ≠ user_id) → (get_ban user_id s).1 = .ok none) ∧
    (∀ r, s.banlist.filter (fun x => x.id == user_id) = [r] →
      (get_ban user_id s).1 = .ok (some r)) := by
  unfold get_token_by_id get_token get_ban
  simp only [htk, hbl, if_true]
  refine ⟨?_, ?_, ?_, ?_, ?_, ?_⟩
  · intro h
    rw [List.filter_eq_nil_iff.mpr (by intro a ha; simpa using h a ha)]
    rfl
  · intro r h; rw [h]; rfl
  · intro h
    rw [List.filter_eq_nil_iff.mpr (by intro a ha; simpa using h a ha)]
    rfl
  · intro r h; rw [h]; rfl
  · intro h
    rw [List.filter_eq_nil_iff.mpr (by intro a ha; simpa using h a ha)]
    rfl
  · intro r h; rw [h]; rfl

/-- Witness for C6 at the concrete state `sOneEach`: id 2, secret "zzzz"
and user 8 are absent; id 1, secret "aaaa" and user 7 each match exactly
one row. -/
theorem lookups_none_when_absent_some_when_unique_witness :
    (get_token_by_id 2 sOneEach).1 = .ok none ∧
    (get_token_by_id 1 sOneEach).1 =
      .ok (some { id := 1, token := "aaaa", permissions := .Root, userid := 77 }) ∧
    (get_token "zzzz" sOneEach).1 = .ok none ∧
    (get_token "aaaa" sOneEach).1 =
      .ok (some { id := 1, token := "aaaa", permissions := .Root, userid := 77 }) ∧
    (get_ban 8 sOneEach).1 = .ok none ∧
    (get_ban 7 sOneEach).1 = .ok (some { id := 7, reason := "spam", date := 100 }) :=
  ⟨(lookups_none_when_absent_some_when_unique 2 "zzzz" 8 sOneEach rfl rfl).1 (by decide),
   (lookups_none_when_absent_some_when_unique 1 "aaaa" 7 sOneEach rfl rfl).2.1 _ (by decide),
   (lookups_none_when_absent_some_when_unique 2 "zzzz" 8 sOneEach rfl rfl).2.2.1 (by decide),
   (lookups_none_when_absent_some_when_unique 1 "aaaa" 7 sOneEach rfl rfl).2.2.2.1 _ (by decide),
   (lookups_none_when_absent_some_when_unique 2 "zzzz" 8 sOneEach rfl rfl).2.2.2.2.1 (by decide),
   (lookups_none_when_absent_some_when_unique 1 "aaaa" 7 sOneEach rfl rfl).2.2.2.2.2 _ (by decide)⟩

/-! ## C5: deleting an absent row succeeds and changes nothing -/

/-- C5: `delete_token_by_id` on an id no token row has returns `Ok` and
leaves `get_tokens` unchanged; `delete_ban` on an absent user id returns
`Ok` and leaves the banlist unchanged. -/
theorem delete_absent_is_noop (token_id user_id : Int) (s : DbState)
    (htk : s.tokensTable = true) (hbl : s.banlistTable = true)
    (hnotok : ∀ r ∈ s.tokens, r.id ≠ token_id)
    (hnoban : ∀ r ∈ s.banlist, r.id ≠ user_id) :
    (delete_token_by_id token_id s).1 = .ok () ∧
    (get_tokens ((delete_token_by_id token_id s).2)).1 = (get_tokens s).1 ∧
    (delete_ban user_id s).1 = .ok () ∧
    (get_bans ((delete_ban user_id s).2)).1 = (get_bans s).1 := by
  have h1 : s.tokens.filter (fun r => !(r.id == token_id)) = s.tokens :=
    List.filter_eq_self.mpr (by intro a ha; simpa using hnotok a ha)
  have h2 : s.banlist.filter (fun r => !(r.id == user_id)) = s.banlist :=
    List.filter_eq_self.mpr (by intro a ha; simpa using hnoban a ha)
  unfold delete_token_by_id delete_ban get_tokens get_bans
  simp [htk, hbl, h1, h2]

/-- Witness for C5: deleting token id 99 and ban user 99 from `sOneEach`
(which holds neither) succeeds and changes nothing. -/
theorem delete_absent_is_noop_witness :
    (delete_token_by_id 99 sOneEach).1 = .ok () ∧
    (get_tokens ((delete_token_by_id 99 sOneEach).2)).1 = (get_tokens sOneEach).1 ∧
    (delete_ban 99 sOneEach).1 = .ok () ∧
    (get_bans ((delete_ban 99 sOneEach).2)).1 = (get_bans sOneEach).1 :=
  delete_absent_is_noop 99 99 sOneEach rfl rfl (by decide) (by decide)

/-! ## C9: duplicate ids and get_token_by_id -/

/-- C9: when several rows of the `tokens` table carry the queried id,
`get_token_by_id` does not fail: it returns `Ok(Some record)` built from
the last matching row of the result set (the result set is in table
order, and `Vec::pop` takes its last element), silently discarding the
other matches. -/
theorem get_token_by_id_on_duplicates (token_id : Int) (s : DbState)
    (pre post : List Token) (r : Token)
    (htk : s.tokensTable = true)
    (hsplit : s.tokens = pre ++ r :: post)
    (hr : r.id = token_id)
    (hpost : ∀ x ∈ post, x.id ≠ token_id)
    (_hdup : 2 ≤ (s.tokens.filter (fun x => x.id == token_id)).length) :
    (get_token_by_id token_id s).1 = .ok (some r) := by
  have hfpost : post.filter (fun x => x.id == token_id) = [] :=
    List.filter_eq_nil_iff.mpr (by intro a ha; simpa using hpost a ha)
  have hmid : (r :: post).filter (fun x => x.id == token_id) = [r] := by
    simp [List.filter_cons, hr, hfpost]
  unfold get_token_by_id
  simp only [htk, if_true, hsplit, List.filter_append, hmid]
  rw [List.getLast?_concat]

/-- A state whose `tokens` table has two rows sharing id 5 (not reachable
through the store, but a legal table under the schema since the two
secrets differ). -/
def sDupIds : DbState :=
  { banlistTable := true, permType := true, tokensTable := true,
    tokens := [{ id := 5, token := "aaaa", permissions := .User, userid := 1 },
               { id := 5, token := "bbbb", permissions := .Admin, userid := 2 }],
    nextId := 6, banlist := [] }

/-- Witness for C9: with two rows of id 5, `get_token_by_id 5` returns
the second (last) row. -/
theorem get_token_by_id_on_duplicates_witness :
    (get_token_by_id 5 sDupIds).1 =
      .ok (some { id := 5, token := "bbbb", permissions := .Admin, userid := 2 }) :=
  get_token_by_id_on_duplicates 5 sDupIds
    [{ id := 5, token := "aaaa", permissions := .User, userid := 1 }] []
    { id := 5, token := "bbbb", permissions := .Admin, userid := 2 }
    rfl rfl rfl (by decide) (by decide)

/-! ## C10: a failed create_token persists nothing and returns no secret -/

/-- C10: if `create_token` returns an error, the `tokens` table is
unchanged (the single rejected `INSERT` persisted no row) and no secret
is returned to the caller. -/
theorem create_token_error_no_row (cfg : Config) (e : Nat → Char) (p : Permission)
    (userid : Int) (s : DbState) (err : DbError)
    (h : (create_token cfg e p userid s).1 = .error err) :
    ((create_token cfg e p userid s).2).tokens = s.tokens ∧
    ∀ secret : String, (create_token cfg e p userid s).1 ≠ .ok secret := by
  unfold create_token at h ⊢
  dsimp only at h ⊢
  split at h
  next htk =>
    split at h
    next hany =>
      refine ⟨?_, ?_⟩
      · simp [htk, hany]
      · intro secret; simp [htk, hany]
    next hany =>
      exact absurd h (by simp)
  next htk =>
    refine ⟨?_, ?_⟩
    · simp [htk]
    · intro secret; simp [htk]

/-- Witness for C10: in `sOneEach` the secret "aaaa" already exists, so
`create_token` with the constant-a entropy hits the primary-key
constraint; the table is unchanged and no secret is produced. -/
theorem create_token_error_no_row_witness :
    ((create_token cfg0 entA .User 5 sOneEach).2).tokens = sOneEach.tokens ∧
    (create_token cfg0 entA .User 5 sOneEach).1 ≠ .ok "aaaa" :=
  have h := create_token_error_no_row cfg0 entA .User 5 sOneEach .uniqueViolation rfl
  ⟨h.1, h.2 "aaaa"⟩

/-! ## C7: setup_tables is idempotent -/

/-- Normal form of `setup_tables`: it always succeeds and only switches
the three schema-existence flags on. -/
theorem setup_tables_spec (s : DbState) :
    setup_tables s =
      (.ok (), { s with banlistTable := true, permType := true, tokensTable := true }) := by
  rcases s with ⟨b, pt, tt, toks, nid, bans⟩
  cases b <;> cases pt <;> cases tt <;> rfl

/-- C7: `setup_tables` is idempotent: iterating it any number of times
after the first call returns no error and leaves the same schema state
as one call; the `permission` enum type is guarded by an existence
check, so once the type exists the guarded creation statement is a
successful no-op (while an unguarded `CREATE TYPE` would fail). -/
theorem setup_tables_idempotent (s : DbState) (n : Nat) :
    (setup_tables s).1 = .ok () ∧
    setup_tables ((setup_tables s).2) = (.ok (), (setup_tables s).2) ∧
    (fun t => (setup_tables t).2)^[n] ((setup_tables s).2) = (setup_tables s).2 ∧
    (s.permType = true → createPermissionTypeGuarded s = (.ok (), s)) := by
  refine ⟨by rw [setup_tables_spec], ?_, ?_, ?_⟩
  · rw [setup_tables_spec s, setup_tables_spec]
  · induction n with
    | zero => rfl
    | succ k ih =>
        rw [Function.iterate_succ_apply, setup_tables_spec s]
        rw [setup_tables_spec]
        rw [setup_tables_spec s] at ih
        exact ih
  · intro hp
    unfold createPermissionTypeGuarded
    rw [hp]
    rfl

/-! ## C1: create_token secret length and round-trip through get_token -/

/-- Length of a generated nanoid secret. -/
theorem nanoid_generate_length (size : Nat) (e : Nat → Char) :
    (nanoid_generate size e).length = size := by
  simp [nanoid_generate, String.length]

/-- C1: whenever `create_token` succeeds with a secret, that secret has
exactly the configured `token_size` characters, and `get_token` (lookup
by secret) on the resulting state returns `Ok(Some record)` whose
`permissions` field is the given permission and whose `userid` field is
the given owner id (the record is the freshly inserted row, carrying the
next serial id). -/
theorem create_token_roundtrip (cfg : Config) (e : Nat → Char) (p : Permission)
    (userid : Int) (s : DbState) (secret : String) (s1 : DbState)
    (h : create_token cfg e p userid s = (.ok secret, s1)) :
    secret.length = cfg.token_size ∧
    (get_token secret s1).1 =
      .ok (some { id := s.nextId, token := secret, permissions := p, userid := userid }) := by
  unfold create_token at h
  dsimp only at h
  split at h
  next htk =>
    split at h
    next hany =>
      exact absurd h (by simp)
    next hany =>
      obtain ⟨h1, h2⟩ := Prod.mk.injEq .. ▸ h
      obtain rfl : secret = nanoid_generate cfg.token_size e := by
        cases h1; rfl
      refine ⟨nanoid_generate_length cfg.token_size e, ?_⟩
      subst h2
      have hnone : s.tokens.filter
          (fun r => r.token == nanoid_generate cfg.token_size e) = [] := by
        rw [List.filter_eq_nil_iff]
        intro a ha
        have := List.any_eq_false.mp (Bool.not_eq_true _ ▸ hany) a ha
        simpa using this
      unfold get_token
      simp only [htk, if_true, List.filter_append, hnone, List.nil_append]
      simp
  next htk =>
    exact absurd h (by simp)

/-- Witness for C1: from an empty `tokens` table, creating an Admin token
for owner 42 with the constant-a entropy yields the four-character
secret "aaaa", and looking it up returns the matching record. -/
theorem create_token_roundtrip_witness :
    ("aaaa" : String).length = cfg0.token_size ∧
    (get_token "aaaa" ((create_token cfg0 entA .Admin 42 sReady).2)).1 =
      .ok (some { id := 1, token := "aaaa", permissions := .Admin, userid := 42 }) :=
  create_token_roundtrip cfg0 entA .Admin 42 sReady "aaaa"
    ((create_token cfg0 entA .Admin 42 sReady).2) rfl

/-! ## C2: add_ban upsert semantics -/

/-- The update arm of the upsert keeps every id, so it preserves the
primary-key invariant on `banlist`; the insert arm appends a row whose
id conflicts with nothing. -/
theorem upsert_banlist_pairwise (uid : Int) (rsn : String) (t : Int) (l : List Ban)
    (hnd : l.Pairwise (fun a b => a.id ≠ b.id)) :
    (upsert_banlist uid rsn t l).Pairwise (fun a b => a.id ≠ b.id) := by
  unfold upsert_banlist
  split
  next hany =>
    refine List.Pairwise.map _ ?_ hnd
    intro a b hab
    have hia : ((if a.id == uid then { a with reason := rsn, date := t } else a) : Ban).id = a.id := by
      split <;> rfl
    have hib : ((if b.id == uid then { b with reason := rsn, date := t } else b) : Ban).id = b.id := by
      split <;> rfl
    rw [hia, hib]
    exact hab
  next hany =>
    have hany' : l.any (fun r => r.id == uid) = false := by
      revert hany; cases l.any (fun r => r.id == uid) <;> simp
    rw [List.pairwise_append]
    refine ⟨hnd, by simp, ?_⟩
    intro a ha b hb
    simp only [List.mem_singleton] at hb
    subst hb
    have := List.any_eq_false.mp hany' a ha
    simpa using this

/-- Filtering for the conflicting id after the update arm of the upsert
yields exactly the refreshed row, provided ids were unique before. -/
theorem filter_map_upsert (uid : Int) (rsn : String) (t : Int) (l : List Ban)
    (hnd : l.Pairwise (fun a b => a.id ≠ b.id))
    (hany : l.any (fun r => r.id == uid) = true) :
    (l.map (fun r => if r.id == uid then { r with reason := rsn, date := t } else r)).filter
      (fun r => r.id == uid) = [{ id := uid, reason := rsn, date := t }] := by
  induction l with
  | nil => simp at hany
  | cons a l ih =>
      rw [List.pairwise_cons] at hnd
      by_cases ha : a.id = uid
      · have htailf : (l.map (fun r => if r.id == uid then { r with reason := rsn, date := t } else r)).filter
            (fun r => r.id == uid) = [] := by
          rw [List.filter_eq_nil_iff]
          intro b hb
          obtain ⟨x, hx, rfl⟩ := List.mem_map.mp hb
          have hxne : ¬ x.id = uid := fun hxe => (hnd.1 x hx) (by rw [ha, hxe])
          simp [hxne]
        simp [ha, htailf]
        intro x hx
        have hxne : ¬ x.id = uid := fun hxe => (hnd.1 x hx) (by rw [ha, hxe])
        simp [hxne]
      · have hany' : l.any (fun r => r.id == uid) = true := by
          simpa [ha] using hany
        simpa [ha] using ih hnd.2 hany'

/-- After an upsert for `uid`, the rows with id `uid` are exactly the
upserted row, provided ids were unique before. -/
theorem upsert_banlist_filter (uid : Int) (rsn : String) (t : Int) (l : List Ban)
    (hnd : l.Pairwise (fun a b => a.id ≠ b.id)) :
    (upsert_banlist uid rsn t l).filter (fun r => r.id == uid) =
      [{ id := uid, reason := rsn, date := t }] := by
  unfold upsert_banlist
  split
  next hany => exact filter_map_upsert uid rsn t l hnd hany
  next hany =>
    have hany' : l.any (fun r => r.id == uid) = false := by
      revert hany; cases l.any (fun r => r.id == uid) <;> simp
    have hl : l.filter (fun r => r.id == uid) = [] := by
      rw [List.filter_eq_nil_iff]
      intro a ha
      have := List.any_eq_false.mp hany' a ha
      simpa using this
    simp [List.filter_append, hl]

/-- C2: `add_ban` is an insert-or-update keyed on `user_id`, realised by
the single statement `INSERT ... ON CONFLICT (id) DO UPDATE`: starting
from a banlist whose ids are unique (the table's primary key), calling
`add_ban uid ra` at time `t1` and then `add_ban uid rb` at time `t2 ≥
t1` succeeds both times and leaves exactly one ban row for `uid`, whose
reason is `rb` and whose date `t2` is at least `t1`. -/
theorem add_ban_twice_upserts (uid t1 t2 : Int) (ra rb : String) (s : DbState)
    (hbl : s.banlistTable = true)
    (hnd : s.banlist.Pairwise (fun a b => a.id ≠ b.id))
    (hmono : t1 ≤ t2) :
    (add_ban uid ra t1 s).1 = .ok () ∧
    (add_ban uid rb t2 ((add_ban uid ra t1 s).2)).1 = .ok () ∧
    ((add_ban uid rb t2 ((add_ban uid ra t1 s).2)).2).banlist.filter
        (fun r => r.id == uid) = [{ id := uid, reason := rb, date := t2 }] ∧
    ∀ r ∈ ((add_ban uid rb t2 ((add_ban uid ra t1 s).2)).2).banlist.filter
        (fun r => r.id == uid), t1 ≤ r.date := by
  unfold add_ban
  simp only [hbl, if_true]
  have hfil := upsert_banlist_filter uid rb t2 (upsert_banlist uid ra t1 s.banlist)
    (upsert_banlist_pairwise uid ra t1 s.banlist hnd)
  refine ⟨trivial, trivial, hfil, ?_⟩
  intro r hr
  rw [hfil] at hr
  simp only [List.mem_singleton] at hr
  subst hr
  exact hmono

/-- Witness for C2 from the empty banlist: ban user 7 with reason "a" at
time 10, then reason "b" at time 20. -/
theorem add_ban_twice_upserts_witness :
    (add_ban 7 "a" 10 sReady).1 = .ok () ∧
    (add_ban 7 "b" 20 ((add_ban 7 "a" 10 sReady).2)).1 = .ok () ∧
    ((add_ban 7 "b" 20 ((add_ban 7 "a" 10 sReady).2)).2).banlist.filter
        (fun r => r.id == 7) = [{ id := 7, reason := "b", date := 20 }] ∧
    (10 : Int) ≤ ({ id := 7, reason := "b", date := 20 } : Ban).date :=
  have h := add_ban_twice_upserts 7 10 20 "a" "b" sReady rfl (by decide) (by decide)
  ⟨h.1, h.2.1, h.2.2.1,
   h.2.2.2 _ (by rw [h.2.2.1]; exact List.mem_singleton.mpr rfl)⟩

/-! ## C3: genesis token creation -/

/-- A state with the full schema in place, no tokens, but a serial
sequence already advanced past 1 (reachable, e.g., by creating and then
deleting a token). -/
def sGap : DbState :=
  { banlistTable := true, permType := true, tokensTable := true,
    tokens := [], nextId := 2, banlist := [] }

/-- Counterexample for C3: from `sGap` (no id-1 row, sequence at 2) a
first successful `create_genesis_token` creates a token — with id 2, not
1 — and a repeated call is NOT a no-op: it creates yet another token and
surfaces a fresh plaintext secret, because the inserted row's serial id
never equals the id 1 the existence check looks for. -/
theorem create_genesis_token_not_idempotent_cex :
    (create_genesis_token cfg0 entA sGap).1 = .ok (some "aaaa") ∧
    (create_genesis_token cfg0 entB ((create_genesis_token cfg0 entA sGap).2)).1 =
      .ok (some "bbbb") ∧
    (((create_genesis_token cfg0 entB
        ((create_genesis_token cfg0 entA sGap).2)).2).tokens).length = 2 ∧
    List.map Token.id (((create_genesis_token cfg0 entB
        ((create_genesis_token cfg0 entA sGap).2)).2).tokens) = [2, 3] :=
  ⟨rfl, rfl, rfl, by decide⟩

/-- C3 (amended): `create_genesis_token` checks for a row with id 1; if
absent it creates exactly one Root token owned by the configured master
id (carrying the next serial id) and surfaces its plaintext secret once,
and if present it is a no-op.  PROVIDED a row with id 1 exists or the
serial sequence still stands at 1 (as on a fresh database), one
successful call makes every repeated call a no-op that exposes no
secret; without that proviso the created row's id differs from 1 and
repeated calls keep creating tokens (see the counterexample). -/
theorem create_genesis_token_idempotent (cfg : Config) (e1 e2 : Nat → Char) (s : DbState)
    (htk : s.tokensTable = true)
    (hpos : (∃ r ∈ s.tokens, r.id = 1) ∨ s.nextId = 1)
    (out : Option String)
    (hok : (create_genesis_token cfg e1 s).1 = .ok out) :
    create_genesis_token cfg e2 ((create_genesis_token cfg e1 s).2) =
      (.ok none, (create_genesis_token cfg e1 s).2) ∧
    ((∀ r ∈ s.tokens, r.id ≠ 1) → ∃ secret, out = some secret ∧
      ((create_genesis_token cfg e1 s).2).tokens =
        s.tokens ++ [{ id := s.nextId, token := secret, permissions := .Root,
                       userid := cfg.masterid }]) ∧
    ((∃ r ∈ s.tokens, r.id = 1) →
      out = none ∧ (create_genesis_token cfg e1 s).2 = s) := by
  by_cases hex : ∃ r ∈ s.tokens, r.id = 1
  · have hne : ¬ s.tokens.filter (fun r => r.id == 1) = [] := by
      obtain ⟨r, hr, hr1⟩ := hex
      intro hnil
      have hmem : r ∈ s.tokens.filter (fun r => r.id == 1) := by
        rw [List.mem_filter]
        exact ⟨hr, by simpa using hr1⟩
      rw [hnil] at hmem
      exact List.not_mem_nil r hmem
    have hg1 : create_genesis_token cfg e1 s = (.ok none, s) := by
      unfold create_genesis_token
      simp only [htk, if_true]
      rw [if_neg (by simpa using hne)]
    rw [hg1] at hok ⊢
    refine ⟨?_, ?_, ?_⟩
    · unfold create_genesis_token
      simp only [htk, if_true]
      rw [if_neg (by simpa using hne)]
    · intro hn
      obtain ⟨r, hr, hr1⟩ := hex
      exact absurd hr1 (hn r hr)
    · intro _
      have hok' : Except.ok (none : Option String) = Except.ok out := hok
      exact ⟨(Except.ok.inj hok').symm, rfl⟩
  · have hnil : s.tokens.filter (fun r => r.id == 1) = [] := by
      rw [List.filter_eq_nil_iff]
      intro a ha
      simp only [beq_iff_eq]
      exact fun h1 => hex ⟨a, ha, h1⟩
    have hn1 : s.nextId = 1 := hpos.resolve_left hex
    rcases hct : create_token cfg e1 Permission.Root cfg.masterid s with ⟨res, s1⟩
    cases res with
    | error err =>
        have hg1 : create_genesis_token cfg e1 s = (.error err, s1) := by
          unfold create_genesis_token
          simp only [htk, if_true, hnil, List.isEmpty_nil, if_true, hct]
        rw [hg1] at hok
        simp at hok
    | ok tok =>
        have hg1 : create_genesis_token cfg e1 s = (.ok (some tok), s1) := by
          unfold create_genesis_token
          simp only [htk, if_true, hnil, List.isEmpty_nil, if_true, hct]
        rw [hg1] at hok ⊢
        have hok' : Except.ok (some tok) = Except.ok out := hok
        have hout : out = some tok := (Except.ok.inj hok').symm
        have hct' := hct
        unfold create_token at hct'
        dsimp only at hct'
        rw [if_pos htk] at hct'
        split at hct'
        next hany =>
          exact absurd (congrArg Prod.fst hct') (by simp)
        next hany =>
          obtain ⟨h1, h2⟩ := Prod.mk.injEq .. ▸ hct'
          obtain rfl : tok = nanoid_generate cfg.token_size e1 := (Except.ok.inj h1).symm
          subst h2
          refine ⟨?_, ?_, ?_⟩
          · unfold create_genesis_token
            dsimp only
            simp only [htk, if_true]
            rw [List.filter_append, hnil, List.nil_append]
            have hone : (([{ id := s.nextId,
                             token := nanoid_generate cfg.token_size e1,
                             permissions := Permission.Root,
                             userid := cfg.masterid }] : List Token)).filter
                  (fun r => r.id == 1) =
                [{ id := s.nextId,
                   token := nanoid_generate cfg.token_size e1,
                   permissions := Permission.Root,
                   userid := cfg.masterid }] := by
              simp [hn1]
            rw [hone]
            rfl
          · intro _
            exact ⟨nanoid_generate cfg.token_size e1, hout, rfl⟩
          · intro hx
            exact absurd hx hex

/-- Witness for C3 at the fresh state `sReady` (sequence at 1): the
first call creates the id-1 genesis token with secret "aaaa", and the
repeated call is a no-op exposing no secret. -/
theorem create_genesis_token_idempotent_witness :
    create_genesis_token cfg0 entB ((create_genesis_token cfg0 entA sReady).2) =
      (.ok none, (create_genesis_token cfg0 entA sReady).2) :=
  (create_genesis_token_idempotent cfg0 entA entB sReady rfl (Or.inr rfl)
    (some "aaaa") rfl).1

/-! ## C4: uniqueness of token ids -/

/-- Distinctness of the `id` column across the rows of a tokens table. -/
def tokenIdsDistinct (rows : List Token) : Prop :=
  rows.Pairwise (fun a b => a.id ≠ b.id)

instance : DecidablePred tokenIdsDistinct := fun rows =>
  inferInstanceAs (Decidable (rows.Pairwise _))

/-- Invariant maintained by the store: every token id was handed out by
the serial sequence (hence is below its next value) and ids are pairwise
distinct. -/
def TokensIdInv (s : DbState) : Prop :=
  (∀ r ∈ s.tokens, r.id < s.nextId) ∧ s.tokens.Pairwise (fun a b => a.id ≠ b.id)

theorem create_token_preserves_inv (cfg : Config) (e : Nat → Char) (p : Permission)
    (uid : Int) (s : DbState) (h : TokensIdInv s) :
    TokensIdInv ((create_token cfg e p uid s).2) := by
  obtain ⟨hb, hp⟩ := h
  unfold create_token
  dsimp only
  split
  · split
    · exact ⟨fun r hr => lt_trans (hb r hr) (lt_add_one _), hp⟩
    · constructor
      · intro r hr
        rcases List.mem_append.mp hr with hin | hnew
        · exact lt_trans (hb r hin) (lt_add_one _)
        · rw [List.mem_singleton.mp hnew]
          exact lt_add_one _
      · rw [List.pairwise_append]
        refine ⟨hp, by simp, ?_⟩
        intro a ha b hbmem
        rw [List.mem_singleton.mp hbmem]
        exact ne_of_lt (hb a ha)
  · exact ⟨hb, hp⟩

theorem delete_token_preserves_inv (i : Int) (s : DbState) (h : TokensIdInv s) :
    TokensIdInv ((delete_token_by_id i s).2) := by
  obtain ⟨hb, hp⟩ := h
  unfold delete_token_by_id
  split
  · refine ⟨?_, ?_⟩
    · intro r hr
      exact hb r (List.mem_filter.mp hr).1
    · exact List.Pairwise.sublist (List.filter_sublist _) hp
  · exact ⟨hb, hp⟩

theorem step_preserves_inv {cfg : Config} {s s' : DbState} (hstep : Step cfg s s')
    (h : TokensIdInv s) : TokensIdInv s' := by
  cases hstep with
  | setup s => rw [setup_tables_spec]; exact h
  | genesis e s =>
      rcases create_genesis_token_snd_cases cfg e s with heq | heq
      · rw [heq]; exact h
      · rw [heq]; exact create_token_preserves_inv cfg e .Root cfg.masterid s h
  | listTokens s => rw [get_tokens_snd]; exact h
  | getById i s => rw [get_token_by_id_snd]; exact h
  | getBySecret t s => rw [get_token_snd]; exact h
  | createTok e p uid s => exact create_token_preserves_inv cfg e p uid s h
  | deleteTok i s => exact delete_token_preserves_inv i s h
  | listBans s => rw [get_bans_snd]; exact h
  | addB u r n s =>
      refine ⟨?_, ?_⟩
      · rw [(add_ban_snd_tokens u r n s).1, (add_ban_snd_tokens u r n s).2]
        exact h.1
      · rw [(add_ban_snd_tokens u r n s).1]
        exact h.2
  | getB u s => rw [get_ban_snd]; exact h
  | deleteB u s =>
      refine ⟨?_, ?_⟩
      · rw [(delete_ban_snd_tokens u s).1, (delete_ban_snd_tokens u s).2]
        exact h.1
      · rw [(delete_ban_snd_tokens u s).1]
        exact h.2

theorem reachable_inv (cfg : Config) (s : DbState) (h : Reachable cfg s) :
    TokensIdInv s := by
  induction h with
  | refl => exact ⟨fun r hr => absurd hr (List.not_mem_nil r), List.Pairwise.nil⟩
  | tail hrest hstep ih => exact step_preserves_inv hstep ih

/-- Counterexample for C4's justification: the `tokens` DDL makes the
secret, not the id, the primary key, so the schema admits a table whose
two rows share id 5 (with distinct secrets) — the schema does NOT
enforce id uniqueness. -/
theorem tokens_schema_does_not_force_id_unique :
    tokensSchemaAdmits
      [{ id := 5, token := "aaaa", permissions := .User, userid := 1 },
       { id := 5, token := "bbbb", permissions := .Admin, userid := 2 }] ∧
    ¬ tokenIdsDistinct
      [{ id := 5, token := "aaaa", permissions := .User, userid := 1 },
       { id := 5, token := "bbbb", permissions := .Admin, userid := 2 }] := by
  constructor
  · decide
  · decide

/-- C4 (amended): uniqueness of token ids is not enforced by the schema
(see the counterexample: only the secret is a key), but it does hold of
every state reachable from the fresh database through the store's
operations, because ids are assigned by the serial sequence. -/
theorem reachable_token_ids_unique (cfg : Config) (s : DbState) (h : Reachable cfg s) :
    tokenIdsDistinct s.tokens :=
  (reachable_inv cfg s h).2

/-- Witness for C4 at the fresh database itself, reachable in zero
steps. -/
theorem reachable_token_ids_unique_witness :
    tokenIdsDistinct initState.tokens :=
  reachable_token_ids_unique cfg0 initState Relation.ReflTransGen.refl

/-- Witness for C7 at the concrete state `sReady` (everything already
created): setup succeeds, a second run changes nothing, three further
runs change nothing, and the guarded type creation is a successful
no-op. -/
theorem setup_tables_idempotent_witness :
    (setup_tables sReady).1 = .ok () ∧
    setup_tables ((setup_tables sReady).2) = (.ok (), (setup_tables sReady).2) ∧
    (fun t => (setup_tables t).2)^[3] ((setup_tables sReady).2) = (setup_tables sReady).2 ∧
    createPermissionTypeGuarded sReady = (.ok (), sReady) :=
  have h := setup_tables_idempotent sReady 3
  ⟨h.1, h.2.1, h.2.2.1, h.2.2.2 rfl⟩
